import Mathlib

/-!
Shallow embedding of the OGRLayer vector-layer core (generic portions of the
OGRSFLayer class): the spatial-filter engine, the forward-iteration protocol,
the schema unifier and the seven set-algebra overlay operations.

Geometries, prepared geometries and attribute payloads are external
collaborators (the geometry kernel and the feature store); they are
parameters of the embedding, supplied as types together with a record of the
engine operations the embedded code calls.  Envelope coordinates are embedded
as rationals; the embedded comparisons mirror the source comparisons exactly.
-/

namespace OGR

/-- Subset of OGRErr status codes used by the modelled code. -/
inductive OGRErr where
  | NONE
  | NOT_ENOUGH_MEMORY
  | UNSUPPORTED_OPERATION
  | FAILURE
  deriving DecidableEq, Repr

/-- Axis-aligned bounding box (OGREnvelope), coordinates embedded as rationals. -/
structure Envelope where
  MinX : ℚ
  MaxX : ℚ
  MinY : ℚ
  MaxY : ℚ
  deriving DecidableEq, Repr

/-- Envelope merge as used by extent computation. -/
def Envelope.merge (a b : Envelope) : Envelope :=
  ⟨min a.MinX b.MinX, max a.MaxX b.MaxX, min a.MinY b.MinY, max a.MaxY b.MaxY⟩

/-- The envelope-disjointness test of OGRLayer::FilterGeometry, written with the
exact comparisons of the source (sGeomEnv.MaxX < m_sFilterEnvelope.MinX etc.). -/
def envelopesDisjoint (g f : Envelope) : Bool :=
  decide (g.MaxX < f.MinX) || decide (g.MaxY < f.MinY) ||
  decide (f.MaxX < g.MinX) || decide (f.MaxY < g.MinY)

/-- The envelope-containment test of OGRLayer::FilterGeometry tier (b):
sGeomEnv.MinX >= m_sFilterEnvelope.MinX and so on. -/
def envelopeContained (g f : Envelope) : Bool :=
  decide (f.MinX ≤ g.MinX) && decide (f.MinY ≤ g.MinY) &&
  decide (g.MaxX ≤ f.MaxX) && decide (g.MaxY ≤ f.MaxY)

/-- Geometry-kernel basics consumed by the spatial filter engine (external
collaborator per the spec: envelope computation, emptiness, rectangle test and
the vertex-in-envelope scan DoesGeometryHavePointInEnvelope). -/
structure FilterBasics (G : Type) where
  isEmpty : G → Bool
  envelope : G → Envelope
  isRectangle : G → Bool
  hasPointInEnvelope : G → Envelope → Bool

/-- The exact-predicate part of the geometry kernel (GEOS availability,
prepared-geometry intersects, plain intersects). Kept separate from the basics
so that independence of a result from the exact predicates can be stated. -/
structure FilterExact (G P : Type) where
  haveGEOS : Bool
  preparedIntersects : P → G → Bool
  intersectsG : G → G → Bool

/-- Per-layer spatial-filter state: the OGRLayer members m_poFilterGeom,
m_pPreparedFilterGeom, m_bFilterIsEnvelope and m_sFilterEnvelope. -/
structure SpatialFilterState (G P : Type) where
  filterGeom : Option G
  preparedFilterGeom : Option P
  filterIsEnvelope : Bool
  filterEnvelope : Envelope

/-- OGRLayer::InstallFilter.  The C++ pointer-equality shortcut
(m_poFilterGeom == poFilter) can only hold for a caller-owned input geometry
when both sides are null, which is how it is rendered here.  On a non-null
input the source stores a clone, recomputes the envelope, compiles the filter
as a prepared geometry right away, and recomputes the rectangle flag; on a
null input it frees everything and leaves the stale envelope in place.
Returns the new state and whether the installed filter differs. -/
def InstallFilter {G P : Type} (B : FilterBasics G) (prepare : G → Option P)
    (st : SpatialFilterState G P) (poFilter : Option G) :
    SpatialFilterState G P × Bool :=
  match st.filterGeom, poFilter with
  | none, none => (st, false)
  | some _, none =>
      ({ filterGeom := none, preparedFilterGeom := none,
         filterIsEnvelope := false, filterEnvelope := st.filterEnvelope }, true)
  | _, some f =>
      ({ filterGeom := some f, preparedFilterGeom := prepare f,
         filterIsEnvelope := B.isRectangle f,
         filterEnvelope := B.envelope f }, true)

/-- OGRLayer::FilterGeometry: the three-tier spatial-filter test.  Absent
filter accepts everything; a null or empty geometry is rejected; then envelope
rejection, the rectangle containment accept, the rectangle vertex-in-envelope
accept, and finally the exact intersects (prepared if compiled) when GEOS is
available, else a permissive accept. -/
def FilterGeometry {G P : Type} (B : FilterBasics G) (X : FilterExact G P)
    (st : SpatialFilterState G P) (poGeometry : Option G) : Bool :=
  match st.filterGeom with
  | none => true
  | some fGeom =>
    match poGeometry with
    | none => false
    | some geo =>
      if B.isEmpty geo then false
      else
        let gEnv := B.envelope geo
        if envelopesDisjoint gEnv st.filterEnvelope then false
        else if st.filterIsEnvelope && envelopeContained gEnv st.filterEnvelope then
          true
        else if st.filterIsEnvelope && B.hasPointInEnvelope geo st.filterEnvelope then
          true
        else if X.haveGEOS then
          match st.preparedFilterGeom with
          | some p => X.preparedIntersects p geo
          | none => X.intersectsG fGeom geo
        else true

/-- Layer state relevant to SetSpatialFilter: the geometry-field count of the
layer schema, the filter state and m_iGeomFieldFilter. -/
structure FilterLayer (G P : Type) where
  geomFieldCount : Int
  sf : SpatialFilterState G P
  iGeomFieldFilter : Int

/-- OGRLayer::ValidateGeometryFieldIndexForSetSpatialFilter (with
bIsSelectLayer = false).  Returns (valid, error-reported): a null filter on
geometry-field index 0 of a layer with no geometry fields is accepted
silently; any other out-of-range index raises a CPLError and is invalid. -/
def ValidateGeometryFieldIndexForSetSpatialFilter {G P : Type}
    (L : FilterLayer G P) (iGeomField : Int) (poGeomIn : Option G) :
    Bool × Bool :=
  if iGeomField = 0 ∧ poGeomIn.isNone = true ∧ L.geomFieldCount = 0 then (true, false)
  else if iGeomField < 0 ∨ L.geomFieldCount ≤ iGeomField then (false, true)
  else (true, false)

/-- OGRLayer::ISetSpatialFilter: records the geometry-field index and installs
the filter (the ResetReading trigger on change has no bearing on the filter
state and is not tracked here). -/
def ISetSpatialFilter {G P : Type} (B : FilterBasics G) (prepare : G → Option P)
    (L : FilterLayer G P) (iGeomField : Int) (poFilter : Option G) :
    OGRErr × FilterLayer G P :=
  let sf := (InstallFilter B prepare L.sf poFilter).1
  (OGRErr.NONE, { L with iGeomFieldFilter := iGeomField, sf := sf })

/-- OGRLayer::SetSpatialFilter(int, OGRGeometry const *): validates the
geometry-field index (skipping validation for a null filter at index 0) and
then delegates to ISetSpatialFilter.  Returns the status, the new layer state
and whether an error was reported. -/
def SetSpatialFilter {G P : Type} (B : FilterBasics G) (prepare : G → Option P)
    (L : FilterLayer G P) (iGeomField : Int) (poFilter : Option G) :
    OGRErr × FilterLayer G P × Bool :=
  if iGeomField = 0 then
    match poFilter with
    | some _ =>
      if (ValidateGeometryFieldIndexForSetSpatialFilter L 0 poFilter).1 then
        let (r, L1) := ISetSpatialFilter B prepare L 0 poFilter
        (r, L1, false)
      else (OGRErr.FAILURE, L, true)
    | none =>
      let (r, L1) := ISetSpatialFilter B prepare L 0 poFilter
      (r, L1, false)
  else
    if (ValidateGeometryFieldIndexForSetSpatialFilter L iGeomField poFilter).1 then
      let (r, L1) := ISetSpatialFilter B prepare L iGeomField poFilter
      (r, L1, false)
    else (OGRErr.FAILURE, L, true)

/-- Forward-only feature store of a layer together with its read cursor and
the re-entrancy flag m_bInFeatureIterator held in OGRLayer::Private.  The
store obeys the fetch-next / reset contract the iterator protocol builds on. -/
structure IterLayer (F : Type) where
  features : List F
  pos : Nat
  inFeatureIterator : Bool
  deriving DecidableEq, Repr

/-- OGRLayer::ResetReading as seen by the iteration protocol: cursor rewind. -/
def iterResetReading {F : Type} (L : IterLayer F) : IterLayer F :=
  { L with pos := 0 }

/-- OGRLayer::GetNextFeature as seen by the iteration protocol: fetch the
record at the cursor (none past the end) and advance. -/
def iterGetNextFeature {F : Type} (L : IterLayer F) : Option F × IterLayer F :=
  (L.features.get? L.pos, { L with pos := L.pos + 1 })

/-- OGRLayer::FeatureIterator::Private — the owned current feature, the error
flag and the end-of-sequence flag (defaults: no feature, no error, EOF). -/
structure FeatureIterator (F : Type) where
  feature : Option F
  bError : Bool
  bEOF : Bool
  deriving DecidableEq, Repr

/-- OGRLayer::FeatureIterator constructor.  With bStart, if the layer's
re-entrancy flag is already set it reports an error state and performs no
reset and no fetch; otherwise it resets the cursor, fetches the first feature
and sets the flag.  Without bStart it is the end() iterator (default flags). -/
def featureIteratorInit {F : Type} (L : IterLayer F) (bStart : Bool) :
    FeatureIterator F × IterLayer F :=
  if bStart then
    if L.inFeatureIterator then
      ({ feature := none, bError := true, bEOF := true }, L)
    else
      let L1 := iterResetReading L
      let (f, L2) := iterGetNextFeature L1
      ({ feature := f, bError := false, bEOF := f.isNone },
       { L2 with inFeatureIterator := true })
  else ({ feature := none, bError := false, bEOF := true }, L)

/-- OGRLayer::FeatureIterator destructor: clears the layer's re-entrancy flag
unless the iterator is in the error state. -/
def featureIteratorDestroy {F : Type} (it : FeatureIterator F)
    (L : IterLayer F) : IterLayer F :=
  if it.bError then L else { L with inFeatureIterator := false }

/-- OGRLayer::FeatureIterator::operator++: fetch the next feature and update
the end-of-sequence flag. -/
def featureIteratorNext {F : Type} (it : FeatureIterator F) (L : IterLayer F) :
    FeatureIterator F × IterLayer F :=
  let (f, L1) := iterGetNextFeature L
  ({ it with feature := f, bEOF := f.isNone }, L1)

/-- OGRLayer::FeatureIterator::operator!=: compares only the EOF flags. -/
def featureIteratorNe {F : Type} (a b : FeatureIterator F) : Bool :=
  a.bEOF != b.bEOF

/-- OGRLayer::begin. -/
def layerBegin {F : Type} (L : IterLayer F) : FeatureIterator F × IterLayer F :=
  featureIteratorInit L true

/-- OGRLayer::end (constructed with bStart = false; the layer is untouched). -/
def layerEnd {F : Type} (L : IterLayer F) : FeatureIterator F :=
  (featureIteratorInit L false).1

/-- The sequence an active iterator will still produce: its current feature
followed by everything the store will hand out from the current cursor, driven
through operator++ exactly as a range-for loop does (fuel-bounded). -/
def iteratorRun {F : Type} : Nat → FeatureIterator F → IterLayer F → List F
  | 0, _, _ => []
  | fuel + 1, it, L =>
    if it.bEOF then []
    else
      match it.feature with
      | none => []
      | some f =>
        let (it1, L1) := featureIteratorNext it L
        f :: iteratorRun fuel it1 L1

/-- Whether set_result_schema builds its duplicate-name sets: only when a
method schema is present and neither the INPUT_PREFIX nor the METHOD_PREFIX
option was supplied (the sets stay empty otherwise). -/
def collisionSetsBuilt (methodPresent : Bool) (inPfx methPfx : Option String) :
    Bool :=
  methodPresent && inPfx.isNone && methPfx.isNone

/-- Result-schema name given to an input-layer field by the auto-populate
branch of set_result_schema: prefixed when INPUT_PREFIX was supplied, else
renamed to input_<name> when the method-schema duplicate-name set holds the
name, else kept as is. -/
def inputFieldResultName (methodPresent : Bool) (inPfx methPfx : Option String)
    (methodFields : List String) (n : String) : String :=
  match inPfx with
  | some p => p ++ n
  | none =>
    if collisionSetsBuilt methodPresent none methPfx && methodFields.contains n
    then "input_" ++ n else n

/-- Result-schema name given to a method-layer field by the auto-populate
branch of set_result_schema: prefixed when METHOD_PREFIX was supplied, else
renamed to method_<name> when the input-schema duplicate-name set holds the
name, else kept as is. -/
def methodFieldResultName (methodPresent : Bool) (inPfx methPfx : Option String)
    (inputFields : List String) (n : String) : String :=
  match methPfx with
  | some p => p ++ n
  | none =>
    if collisionSetsBuilt methodPresent inPfx none && inputFields.contains n
    then "method_" ++ n else n

/-- Field names created on the result layer by the auto-populate branch of
set_result_schema (result schema empty): the input fields under
inputFieldResultName when ADD_INPUT_FIELDS is on, then — only for a combined
schema with a non-null method map and schema and ADD_METHOD_FIELDS on — the
method fields under methodFieldResultName. -/
def setResultSchemaAutoNames (inputFields methodFields : List String)
    (methodPresent combined hasMethodMap addInput addMethod : Bool)
    (inPfx methPfx : Option String) : List String :=
  (if addInput then
      inputFields.map (inputFieldResultName methodPresent inPfx methPfx methodFields)
    else [])
  ++ (if combined && hasMethodMap && methodPresent && addMethod then
        methodFields.map (methodFieldResultName methodPresent inPfx methPfx inputFields)
      else [])

/-- One record of a layer: an attribute payload and an owned optional geometry
(the designated first geometry field, the only one the overlay engine uses). -/
structure Feature (G A : Type) where
  fields : A
  geom : Option G
  deriving DecidableEq, Repr

/-- A source layer as the overlay engine sees it: its feature sequence and its
installed spatial filter (value semantics for the owned clone). -/
structure Layer (G A : Type) where
  features : List (Feature G A)
  filter : Option G
  deriving DecidableEq, Repr

/-- A feature written to the result layer: attribute payloads copied through
the input and method field maps, plus the computed geometry. -/
structure ResultFeature (G A : Type) where
  fromInput : Option A
  fromMethod : Option A
  geom : G
  deriving DecidableEq, Repr

/-- The result layer: whether its declared geometry type is wkbUnknown, its
features, and which CreateFeature calls succeed (indexed by the number of
features the layer holds when the call is made). -/
structure ResultLayer (G A : Type) where
  geomTypeUnknown : Bool
  features : List (ResultFeature G A)
  createOK : Nat → Bool

/-- The geometry-kernel operations the overlay engine calls (external
collaborator).  Fallible operations return none on a kernel error or a null
result; sfMatches is the store-side spatial-filter predicate honoured by
GetNextFeature; promote is the forceToMulti promotion. -/
structure GeomEngine (G P : Type) where
  isEmpty : G → Bool
  dimension : G → Nat
  envelope : G → Envelope
  intersects : G → G → Bool
  intersection : G → G → Option G
  difference : G → G → Option G
  unionG : G → G → Option G
  prepare : G → Option P
  prepIntersects : P → G → Bool
  prepContains : P → G → Bool
  promote : G → G
  sfMatches : G → G → Bool

/-- The recognised overlay option keys with their documented defaults. -/
structure OverlayOptions where
  skipFailures : Bool
  promoteToMulti : Bool
  usePreparedGeometries : Bool
  pretestContainment : Bool
  keepLowerDimGeom : Bool

/-- Defaults: SKIP_FAILURES=NO, PROMOTE_TO_MULTI=NO,
USE_PREPARED_GEOMETRIES=YES, PRETEST_CONTAINMENT=NO,
KEEP_LOWER_DIMENSION_GEOMETRIES=YES. -/
def defaultOverlayOptions : OverlayOptions :=
  ⟨false, false, true, false, true⟩

/-- Run environment of one overlay call: GEOS availability, whether the
field-map allocations succeed, whether set_result_schema succeeds, and the
optional progress callback (indexed by invocation count, returning whether to
continue). -/
structure OverlayEnv where
  haveGEOS : Bool
  allocOK : Bool
  schemaOK : Bool
  progress : Option (Nat → Bool)

/-- Environment with everything available and no progress callback. -/
def defaultOverlayEnv : OverlayEnv :=
  ⟨true, true, true, none⟩

/-- The mutable locals of an overlay operation: the ret status, the features
created so far on the result layer, the number of progress-callback
invocations, and progress_counter. -/
structure OvSt (G A : Type) where
  ret : OGRErr
  res : List (ResultFeature G A)
  progressCalls : Nat
  counter : Nat

/-- Whether a feature is returned by iteration under an installed spatial
filter: no filter passes everything; a feature with no geometry never matches
a filter; else the store applies the engine predicate. -/
def passesSpatialFilter {G A P : Type} (E : GeomEngine G P) (flt : Option G)
    (f : Feature G A) : Bool :=
  match flt with
  | none => true
  | some fl =>
    match f.geom with
    | none => false
    | some g => E.sfMatches fl g

/-- The feature sequence iteration yields under the given installed filter. -/
def visibleFeatures {G A P : Type} (E : GeomEngine G P) (flt : Option G)
    (fs : List (Feature G A)) : List (Feature G A) :=
  fs.filter (passesSpatialFilter E flt)

/-- GetExtent over a layer honouring its installed filter: the merge of the
envelopes of the visible geometries, none when there are none (the source
treats the OGRERR_FAILURE of GetExtent as bEnvelopeSet = false). -/
def layerExtent {G A P : Type} (E : GeomEngine G P) (L : Layer G A) :
    Option Envelope :=
  (visibleFeatures E L.filter L.features).foldl
    (fun acc f =>
      match f.geom with
      | none => acc
      | some g =>
        match acc with
        | none => some (E.envelope g)
        | some e => some (e.merge (E.envelope g)))
    none

/-- The helper set_filter_from: installs on the target layer the intersection
of the saved original filter with the feature's geometry (the geometry itself
when no original filter existed).  On success returns the feature's geometry
paired with the filter now installed; the Bool flags a kernel error (null
Intersection result), after which the caller sees a null x_geom. -/
def setFilterFrom {G A P : Type} (E : GeomEngine G P) (saved : Option G)
    (f : Feature G A) : Option (G × G) × Bool :=
  match f.geom with
  | none => (none, false)
  | some g =>
    match saved with
    | none => (some (g, g), false)
    | some flt =>
      if E.intersects g flt then
        match E.intersection g flt with
        | some inter => (some (g, inter), false)
        | none => (none, true)
      else (none, false)

/-- The in-loop progress handling shared by the operations: with a callback
present, once progress_counter is positive the fraction exceeds the (never
updated) ticker and the callback runs; a false return is the UserInterrupt
path to the cleanup label. -/
def progressCheck {G A : Type} (env : OverlayEnv) (st : OvSt G A) :
    Except (OvSt G A) (OvSt G A) :=
  match env.progress with
  | none => .ok st
  | some cb =>
    if 0 < st.counter then
      if cb st.progressCalls then
        .ok { st with progressCalls := st.progressCalls + 1,
                      counter := st.counter + 1 }
      else
        .error { st with progressCalls := st.progressCalls + 1,
                         ret := OGRErr.FAILURE }
    else .ok { st with counter := st.counter + 1 }

/-- The final pfnProgress(1.0) call after the loops; a false return sets the
failure status (control falls to the cleanup label either way). -/
def finalProgress {G A : Type} (env : OverlayEnv) (st : OvSt G A) : OvSt G A :=
  match env.progress with
  | none => st
  | some cb =>
    if cb st.progressCalls then { st with progressCalls := st.progressCalls + 1 }
    else { st with progressCalls := st.progressCalls + 1, ret := OGRErr.FAILURE }

/-- CreateFeature on the result layer with the SKIP_FAILURES dual policy: a
failure is fatal (to the cleanup label) unless failures are skipped, in which
case the error is cleared and ret reset. -/
def createFeatureStep {G A : Type} (resL : ResultLayer G A)
    (skipFailures : Bool) (z : ResultFeature G A) (st : OvSt G A) :
    Except (OvSt G A) (OvSt G A) :=
  if resL.createOK st.res.length then
    .ok { st with res := st.res ++ [z], ret := OGRErr.NONE }
  else if skipFailures then .ok { st with ret := OGRErr.NONE }
  else .error { st with ret := OGRErr.FAILURE }

/-- Fold a step over a list, short-circuiting to the cleanup label (the error
component) exactly as the goto done exits do. -/
def exceptLoop {α σ ε : Type} (step : σ → α → Except ε σ) :
    List α → σ → Except ε σ
  | [], st => .ok st
  | x :: xs, st =>
    match step st x with
    | .error d => .error d
    | .ok st1 => exceptLoop step xs st1

/-- The body of Intersection's inner loop over the method layer for one input
feature: skip features without geometry; under a prepared input geometry,
accept a clone of y via the optional containment pretest or reject when the
prepared intersects pretest fails; otherwise compute the exact intersection
(kernel failure follows the SKIP_FAILURES policy), drop it when empty or — with
KEEP_LOWER_DIMENSION_GEOMETRIES off — when equal-dimension inputs produced a
strictly lower-dimensional result, and else create the result feature with
both attribute payloads. -/
def intersectionPairStep {G A P : Type} (E : GeomEngine G P)
    (opts : OverlayOptions) (resL : ResultLayer G A) (x : Feature G A) (xg : G)
    (xprep : Option P) (keep : Bool) (st : OvSt G A) (y : Feature G A) :
    Except (OvSt G A) (OvSt G A) :=
  match y.geom with
  | none => .ok st
  | some yg =>
    let viaPretest : Bool :=
      match xprep with
      | some p => opts.pretestContainment && E.prepContains p yg
      | none => false
    let rejected : Bool :=
      match xprep with
      | some p =>
        !(opts.pretestContainment && E.prepContains p yg) &&
          !(E.prepIntersects p yg)
      | none => false
    if viaPretest then
      let zg := if opts.promoteToMulti then E.promote yg else yg
      createFeatureStep resL opts.skipFailures ⟨some x.fields, some y.fields, zg⟩ st
    else if rejected then .ok st
    else
      match E.intersection xg yg with
      | none =>
        if opts.skipFailures then .ok { st with ret := OGRErr.NONE }
        else .error { st with ret := OGRErr.FAILURE }
      | some z0 =>
        if E.isEmpty z0 ||
            (!keep && decide (E.dimension xg = E.dimension yg) &&
              decide (E.dimension z0 < E.dimension xg)) then
          .ok st
        else
          let zg := if opts.promoteToMulti then E.promote z0 else z0
          createFeatureStep resL opts.skipFailures
            ⟨some x.fields, some y.fields, zg⟩ st

/-- The body of Intersection's outer loop for one input feature: progress
check, the envelope pretest against the method layer's extent, installing the
per-feature method filter via set_filter_from, the prepared-geometry creation
(whose failure jumps to cleanup with ret untouched), then the inner loop over
the method features visible under the just-installed filter. -/
def intersectionOuterStep {G A P : Type} (E : GeomEngine G P)
    (env : OverlayEnv) (opts : OverlayOptions) (meth : Layer G A)
    (resL : ResultLayer G A) (saved : Option G) (extent : Option Envelope)
    (keep : Bool) (st : OvSt G A) (x : Feature G A) :
    Except (OvSt G A) (OvSt G A) :=
  match progressCheck env st with
  | .error d => .error d
  | .ok st1 =>
    let skipByEnvelope : Bool :=
      match extent with
      | none => false
      | some me =>
        match x.geom with
        | none => true
        | some xg => envelopesDisjoint (E.envelope xg) me
    if skipByEnvelope then .ok st1
    else
      match setFilterFrom E saved x with
      | (none, err) =>
        if err && !opts.skipFailures then .error { st1 with ret := OGRErr.FAILURE }
        else if err then .ok { st1 with ret := OGRErr.NONE }
        else .ok st1
      | (some (xg, inst), _) =>
        if opts.usePreparedGeometries then
          match E.prepare xg with
          | none => .error st1
          | some p =>
            exceptLoop (intersectionPairStep E opts resL x xg (some p) keep)
              (visibleFeatures E (some inst) meth.features) st1
        else
          exceptLoop (intersectionPairStep E opts resL x xg none keep)
            (visibleFeatures E (some inst) meth.features) st1

/-- Outcome of one overlay operation: the returned status, the spatial filter
left installed on each source layer, and the result layer's features. -/
structure OverlayResult (G A : Type) where
  ret : OGRErr
  inputFilter : Option G
  methodFilter : Option G
  res : List (ResultFeature G A)
  deriving Repr

/-- OGRLayer::Intersection.  GEOS is checked before any resource is taken;
then the method filter is snapshotted, the field maps and result schema are
built (failures jump to cleanup), the method extent and the
KEEP_LOWER_DIMENSION_GEOMETRIES forcing are computed, the nested loops run,
and the cleanup label restores the snapshotted method filter on every exit
path.  The input layer's own filter is never touched. -/
def OGRLayer_Intersection {G A P : Type} (E : GeomEngine G P)
    (env : OverlayEnv) (inp meth : Layer G A) (resL : ResultLayer G A)
    (opts : OverlayOptions) : OverlayResult G A :=
  if !env.haveGEOS then
    ⟨OGRErr.UNSUPPORTED_OPERATION, inp.filter, meth.filter, resL.features⟩
  else
    let saved := meth.filter
    let st0 : OvSt G A := ⟨OGRErr.NONE, resL.features, 0, 0⟩
    let fin : OvSt G A :=
      if !env.allocOK then { st0 with ret := OGRErr.NOT_ENOUGH_MEMORY }
      else if !env.schemaOK then { st0 with ret := OGRErr.FAILURE }
      else
        let extent := layerExtent E meth
        let keep := opts.keepLowerDimGeom && resL.geomTypeUnknown
        match exceptLoop
            (intersectionOuterStep E env opts meth resL saved extent keep)
            (visibleFeatures E inp.filter inp.features) st0 with
        | .error d => d
        | .ok s => finalProgress env s
    ⟨fin.ret, inp.filter, saved, fin.res⟩

/-- The inner-loop body shared by Union's input pass and Identity: the
prepared intersects pretest, the exact intersection with the SKIP_FAILURES
policy, the empty / lower-dimension drop, and otherwise the running
input-difference update (a kernel failure there is fatal unless skipped, in
which case the chain keeps its previous value) followed by creation of the
pairwise result feature with both attribute payloads. -/
def diffChainPairStep {G A P : Type} (E : GeomEngine G P)
    (opts : OverlayOptions) (resL : ResultLayer G A) (x : Feature G A) (xg : G)
    (xprep : Option P) (keep : Bool) (acc : OvSt G A × Option G)
    (y : Feature G A) : Except (OvSt G A) (OvSt G A × Option G) :=
  let (st, diff) := acc
  match y.geom with
  | none => .ok (st, diff)
  | some yg =>
    let rejected : Bool :=
      match xprep with
      | some p => !(E.prepIntersects p yg)
      | none => false
    if rejected then .ok (st, diff)
    else
      match E.intersection xg yg with
      | none =>
        if opts.skipFailures then .ok ({ st with ret := OGRErr.NONE }, diff)
        else .error { st with ret := OGRErr.FAILURE }
      | some inter =>
        if E.isEmpty inter ||
            (!keep && decide (E.dimension xg = E.dimension yg) &&
              decide (E.dimension inter < E.dimension xg)) then
          .ok (st, diff)
        else
          let diffStep : Except (OvSt G A) (Option G) :=
            match diff with
            | none => .ok none
            | some d =>
              match E.difference d yg with
              | none =>
                if opts.skipFailures then .ok (some d)
                else .error { st with ret := OGRErr.FAILURE }
              | some d1 => .ok (some d1)
          match diffStep with
          | .error dd => .error dd
          | .ok diff1 =>
            let zg := if opts.promoteToMulti then E.promote inter else inter
            match createFeatureStep resL opts.skipFailures
                ⟨some x.fields, some y.fields, zg⟩ st with
            | .error dd => .error dd
            | .ok st1 => .ok (st1, diff1)

/-- One step of a plain running-difference chain (Union's method pass, Update,
SymDifference): features without geometry are skipped; a kernel failure of
Difference is fatal unless skipped (error cleared, ret reset, chain kept). -/
def diffOnlyStep {G A P : Type} (E : GeomEngine G P) (skipFailures : Bool)
    (acc : OvSt G A × Option G) (y : Feature G A) :
    Except (OvSt G A) (OvSt G A × Option G) :=
  let (st, diff) := acc
  match y.geom with
  | none => .ok (st, diff)
  | some yg =>
    match diff with
    | none => .ok (st, none)
    | some d =>
      match E.difference d yg with
      | none =>
        if skipFailures then .ok ({ st with ret := OGRErr.NONE }, some d)
        else .error { st with ret := OGRErr.FAILURE }
      | some d1 => .ok (st, some d1)

/-- The leftover emission shared by the difference-chain passes: nothing when
the remaining geometry is null or empty, else a result feature carrying the
given attribute payloads and the (optionally promoted) remainder. -/
def leftoverCreate {G A P : Type} (E : GeomEngine G P) (opts : OverlayOptions)
    (resL : ResultLayer G A) (fi fm : Option A) (diff : Option G)
    (st : OvSt G A) : Except (OvSt G A) (OvSt G A) :=
  match diff with
  | none => .ok st
  | some d =>
    if E.isEmpty d then .ok st
    else
      let zg := if opts.promoteToMulti then E.promote d else d
      createFeatureStep resL opts.skipFailures ⟨fi, fm, zg⟩ st

/-- The shared head of each per-input-feature body: progress handling then
set_filter_from with the SKIP_FAILURES policy on a kernel error; the
continuation runs only when a geometry and an installed filter came back. -/
def withInstalledFilter {G A P : Type} (E : GeomEngine G P) (env : OverlayEnv)
    (opts : OverlayOptions) (saved : Option G) (x : Feature G A)
    (st : OvSt G A) (k : OvSt G A → G → G → Except (OvSt G A) (OvSt G A)) :
    Except (OvSt G A) (OvSt G A) :=
  match progressCheck env st with
  | .error d => .error d
  | .ok st1 =>
    match setFilterFrom E saved x with
    | (none, err) =>
      if err && !opts.skipFailures then .error { st1 with ret := OGRErr.FAILURE }
      else if err then .ok { st1 with ret := OGRErr.NONE }
      else .ok st1
    | (some (xg, inst), _) => k st1 xg inst

/-- The body of Union's loop over the input layer for one input feature:
per-feature method filter, prepared-geometry creation (failure jumps to
cleanup with ret untouched), the pairwise intersection inner loop threading
the running input difference, then the input-leftover emission. -/
def unionInputStep {G A P : Type} (E : GeomEngine G P) (env : OverlayEnv)
    (opts : OverlayOptions) (meth : Layer G A) (resL : ResultLayer G A)
    (savedMeth : Option G) (keep : Bool) (st : OvSt G A) (x : Feature G A) :
    Except (OvSt G A) (OvSt G A) :=
  withInstalledFilter E env opts savedMeth x st (fun st1 xg inst =>
    let run : Option P → Except (OvSt G A) (OvSt G A) := fun xprep =>
      match exceptLoop (diffChainPairStep E opts resL x xg xprep keep)
          (visibleFeatures E (some inst) meth.features) (st1, some xg) with
      | .error d => .error d
      | .ok (st2, diff) => leftoverCreate E opts resL (some x.fields) none diff st2
    if opts.usePreparedGeometries then
      match E.prepare xg with
      | none => .error st1
      | some p => run (some p)
    else run none)

/-- The body of Union's loop over the method layer for one method feature:
per-feature input filter, the plain difference chain against the visible input
features, then the method-leftover emission (attributes from the method side). -/
def unionMethodStep {G A P : Type} (E : GeomEngine G P) (env : OverlayEnv)
    (opts : OverlayOptions) (inp : Layer G A) (resL : ResultLayer G A)
    (savedInput : Option G) (st : OvSt G A) (x : Feature G A) :
    Except (OvSt G A) (OvSt G A) :=
  withInstalledFilter E env opts savedInput x st (fun st1 xg inst =>
    match exceptLoop (diffOnlyStep E opts.skipFailures)
        (visibleFeatures E (some inst) inp.features) (st1, some xg) with
    | .error d => .error d
    | .ok (st2, diff) => leftoverCreate E opts resL none (some x.fields) diff st2)

/-- OGRLayer::Union: both layers' filters are snapshotted; the input pass runs
with the per-feature method filter, the method filter is restored before the
method pass (which installs per-feature input filters), and the cleanup label
restores both snapshots on every exit path. -/
def OGRLayer_Union {G A P : Type} (E : GeomEngine G P) (env : OverlayEnv)
    (inp meth : Layer G A) (resL : ResultLayer G A) (opts : OverlayOptions) :
    OverlayResult G A :=
  if !env.haveGEOS then
    ⟨OGRErr.UNSUPPORTED_OPERATION, inp.filter, meth.filter, resL.features⟩
  else
    let savedInput := inp.filter
    let savedMeth := meth.filter
    let st0 : OvSt G A := ⟨OGRErr.NONE, resL.features, 0, 0⟩
    let fin : OvSt G A :=
      if !env.allocOK then { st0 with ret := OGRErr.NOT_ENOUGH_MEMORY }
      else if !env.schemaOK then { st0 with ret := OGRErr.FAILURE }
      else
        let keep := opts.keepLowerDimGeom && resL.geomTypeUnknown
        match exceptLoop (unionInputStep E env opts meth resL savedMeth keep)
            (visibleFeatures E inp.filter inp.features) st0 with
        | .error d => d
        | .ok s1 =>
          match exceptLoop (unionMethodStep E env opts inp resL savedInput)
              (visibleFeatures E savedMeth meth.features) s1 with
          | .error d => d
          | .ok s2 => finalProgress env s2
    ⟨fin.ret, savedInput, savedMeth, fin.res⟩

/-- The running-difference loop of SymDifference with its in-loop break: after
each processed geometry the chain stops once the remainder is empty (and, in
the method pass, also when it is null). -/
def symDiffChainLoop {G A P : Type} (E : GeomEngine G P)
    (skipFailures breakOnNull : Bool) :
    List (Feature G A) → OvSt G A × Option G →
      Except (OvSt G A) (OvSt G A × Option G)
  | [], acc => .ok acc
  | y :: ys, acc =>
    match diffOnlyStep E skipFailures acc y with
    | .error d => .error d
    | .ok (st1, geom1) =>
      match y.geom with
      | none => symDiffChainLoop E skipFailures breakOnNull ys (st1, geom1)
      | some _ =>
        match geom1 with
        | none =>
          if breakOnNull then .ok (st1, none)
          else symDiffChainLoop E skipFailures breakOnNull ys (st1, none)
        | some g =>
          if E.isEmpty g then .ok (st1, some g)
          else symDiffChainLoop E skipFailures breakOnNull ys (st1, some g)

/-- The body of SymDifference's input pass for one input feature. -/
def symDifferenceInputStep {G A P : Type} (E : GeomEngine G P)
    (env : OverlayEnv) (opts : OverlayOptions) (meth : Layer G A)
    (resL : ResultLayer G A) (savedMeth : Option G) (st : OvSt G A)
    (x : Feature G A) : Except (OvSt G A) (OvSt G A) :=
  withInstalledFilter E env opts savedMeth x st (fun st1 xg inst =>
    match symDiffChainLoop E opts.skipFailures false
        (visibleFeatures E (some inst) meth.features) (st1, some xg) with
    | .error d => .error d
    | .ok (st2, geom) => leftoverCreate E opts resL (some x.fields) none geom st2)

/-- The body of SymDifference's method pass for one method feature. -/
def symDifferenceMethodStep {G A P : Type} (E : GeomEngine G P)
    (env : OverlayEnv) (opts : OverlayOptions) (inp : Layer G A)
    (resL : ResultLayer G A) (savedInput : Option G) (st : OvSt G A)
    (x : Feature G A) : Except (OvSt G A) (OvSt G A) :=
  withInstalledFilter E env opts savedInput x st (fun st1 xg inst =>
    match symDiffChainLoop E opts.skipFailures true
        (visibleFeatures E (some inst) inp.features) (st1, some xg) with
    | .error d => .error d
    | .ok (st2, geom) => leftoverCreate E opts resL none (some x.fields) geom st2)

/-- OGRLayer::SymDifference: two difference-chain passes over snapshotted
filters, both snapshots restored at the cleanup label on every exit path. -/
def OGRLayer_SymDifference {G A P : Type} (E : GeomEngine G P)
    (env : OverlayEnv) (inp meth : Layer G A) (resL : ResultLayer G A)
    (opts : OverlayOptions) : OverlayResult G A :=
  if !env.haveGEOS then
    ⟨OGRErr.UNSUPPORTED_OPERATION, inp.filter, meth.filter, resL.features⟩
  else
    let savedInput := inp.filter
    let savedMeth := meth.filter
    let st0 : OvSt G A := ⟨OGRErr.NONE, resL.features, 0, 0⟩
    let fin : OvSt G A :=
      if !env.allocOK then { st0 with ret := OGRErr.NOT_ENOUGH_MEMORY }
      else if !env.schemaOK then { st0 with ret := OGRErr.FAILURE }
      else
        match exceptLoop (symDifferenceInputStep E env opts meth resL savedMeth)
            (visibleFeatures E inp.filter inp.features) st0 with
        | .error d => d
        | .ok s1 =>
          match exceptLoop (symDifferenceMethodStep E env opts inp resL savedInput)
              (visibleFeatures E savedMeth meth.features) s1 with
          | .error d => d
          | .ok s2 => finalProgress env s2
    ⟨fin.ret, savedInput, savedMeth, fin.res⟩

/-- OGRLayer::Identity: a single pass identical in structure to Union's input
pass (pairwise intersections plus the input leftover), over the snapshotted
method filter, restored at the cleanup label.  The input layer's own filter is
never touched. -/
def OGRLayer_Identity {G A P : Type} (E : GeomEngine G P) (env : OverlayEnv)
    (inp meth : Layer G A) (resL : ResultLayer G A) (opts : OverlayOptions) :
    OverlayResult G A :=
  if !env.haveGEOS then
    ⟨OGRErr.UNSUPPORTED_OPERATION, inp.filter, meth.filter, resL.features⟩
  else
    let savedMeth := meth.filter
    let st0 : OvSt G A := ⟨OGRErr.NONE, resL.features, 0, 0⟩
    let fin : OvSt G A :=
      if !env.allocOK then { st0 with ret := OGRErr.NOT_ENOUGH_MEMORY }
      else if !env.schemaOK then { st0 with ret := OGRErr.FAILURE }
      else
        let keep := opts.keepLowerDimGeom && resL.geomTypeUnknown
        match exceptLoop (unionInputStep E env opts meth resL savedMeth keep)
            (visibleFeatures E inp.filter inp.features) st0 with
        | .error d => d
        | .ok s1 => finalProgress env s1
    ⟨fin.ret, inp.filter, savedMeth, fin.res⟩

/-- The body of Update's method pass for one method feature: its geometry is
stolen (moved, not copied, and never promoted) into a result feature carrying
the method attribute payload. -/
def updateMethodStep {G A P : Type} (_E : GeomEngine G P) (env : OverlayEnv)
    (opts : OverlayOptions) (resL : ResultLayer G A) (st : OvSt G A)
    (y : Feature G A) : Except (OvSt G A) (OvSt G A) :=
  match progressCheck env st with
  | .error d => .error d
  | .ok st1 =>
    match y.geom with
    | none => .ok st1
    | some g =>
      createFeatureStep resL opts.skipFailures ⟨none, some y.fields, g⟩ st1

/-- The body of Update's input pass for one input feature: the plain
difference chain against the visible method features, then the leftover. -/
def updateInputStep {G A P : Type} (E : GeomEngine G P) (env : OverlayEnv)
    (opts : OverlayOptions) (meth : Layer G A) (resL : ResultLayer G A)
    (savedMeth : Option G) (st : OvSt G A) (x : Feature G A) :
    Except (OvSt G A) (OvSt G A) :=
  withInstalledFilter E env opts savedMeth x st (fun st1 xg inst =>
    match exceptLoop (diffOnlyStep E opts.skipFailures)
        (visibleFeatures E (some inst) meth.features) (st1, some xg) with
    | .error d => .error d
    | .ok (st2, diff) => leftoverCreate E opts resL (some x.fields) none diff st2)

/-- OGRLayer::Update: the clipped-input pass over the per-feature method
filter, then — after restoring the snapshot — the plain transfer pass over the
method features; the snapshot is restored again at the cleanup label on every
exit path.  The input layer's own filter is never touched. -/
def OGRLayer_Update {G A P : Type} (E : GeomEngine G P) (env : OverlayEnv)
    (inp meth : Layer G A) (resL : ResultLayer G A) (opts : OverlayOptions) :
    OverlayResult G A :=
  if !env.haveGEOS then
    ⟨OGRErr.UNSUPPORTED_OPERATION, inp.filter, meth.filter, resL.features⟩
  else
    let savedMeth := meth.filter
    let st0 : OvSt G A := ⟨OGRErr.NONE, resL.features, 0, 0⟩
    let fin : OvSt G A :=
      if !env.allocOK then { st0 with ret := OGRErr.NOT_ENOUGH_MEMORY }
      else if !env.schemaOK then { st0 with ret := OGRErr.FAILURE }
      else
        match exceptLoop (updateInputStep E env opts meth resL savedMeth)
            (visibleFeatures E inp.filter inp.features) st0 with
        | .error d => d
        | .ok s1 =>
          match exceptLoop (updateMethodStep E env opts resL)
              (visibleFeatures E savedMeth meth.features) s1 with
          | .error d => d
          | .ok s2 => finalProgress env s2
    ⟨fin.ret, inp.filter, savedMeth, fin.res⟩

/-- One step of Clip's incremental union of the visible method geometries: the
first geometry seeds the accumulator, later ones are unioned in (a kernel
failure is fatal unless skipped, keeping the accumulator). -/
def clipUnionChainStep {G A P : Type} (E : GeomEngine G P)
    (skipFailures : Bool) (acc : OvSt G A × Option G) (y : Feature G A) :
    Except (OvSt G A) (OvSt G A × Option G) :=
  let (st, geom) := acc
  match y.geom with
  | none => .ok (st, geom)
  | some yg =>
    match geom with
    | none => .ok (st, some yg)
    | some g =>
      match E.unionG g yg with
      | none =>
        if skipFailures then .ok ({ st with ret := OGRErr.NONE }, some g)
        else .error { st with ret := OGRErr.FAILURE }
      | some g1 => .ok (st, some g1)

/-- The body of Clip's loop for one input feature: accumulate the union of the
visible method geometries, then emit at most one feature carrying the input
attributes and the non-empty intersection of the input geometry with it. -/
def clipInputStep {G A P : Type} (E : GeomEngine G P) (env : OverlayEnv)
    (opts : OverlayOptions) (meth : Layer G A) (resL : ResultLayer G A)
    (savedMeth : Option G) (st : OvSt G A) (x : Feature G A) :
    Except (OvSt G A) (OvSt G A) :=
  withInstalledFilter E env opts savedMeth x st (fun st1 xg inst =>
    match exceptLoop (clipUnionChainStep E opts.skipFailures)
        (visibleFeatures E (some inst) meth.features) (st1, none) with
    | .error d => .error d
    | .ok (st2, geom) =>
      match geom with
      | none => .ok st2
      | some g =>
        match E.intersection xg g with
        | none =>
          if opts.skipFailures then .ok { st2 with ret := OGRErr.NONE }
          else .error { st2 with ret := OGRErr.FAILURE }
        | some z =>
          if E.isEmpty z then .ok st2
          else
            let zg := if opts.promoteToMulti then E.promote z else z
            createFeatureStep resL opts.skipFailures
              ⟨some x.fields, none, zg⟩ st2)

/-- OGRLayer::Clip: one pass over the input features against the snapshotted
method filter, restored at the cleanup label on every exit path. -/
def OGRLayer_Clip {G A P : Type} (E : GeomEngine G P) (env : OverlayEnv)
    (inp meth : Layer G A) (resL : ResultLayer G A) (opts : OverlayOptions) :
    OverlayResult G A :=
  if !env.haveGEOS then
    ⟨OGRErr.UNSUPPORTED_OPERATION, inp.filter, meth.filter, resL.features⟩
  else
    let savedMeth := meth.filter
    let st0 : OvSt G A := ⟨OGRErr.NONE, resL.features, 0, 0⟩
    let fin : OvSt G A :=
      if !env.allocOK then { st0 with ret := OGRErr.NOT_ENOUGH_MEMORY }
      else if !env.schemaOK then { st0 with ret := OGRErr.FAILURE }
      else
        match exceptLoop (clipInputStep E env opts meth resL savedMeth)
            (visibleFeatures E inp.filter inp.features) st0 with
        | .error d => d
        | .ok s1 => finalProgress env s1
    ⟨fin.ret, inp.filter, savedMeth, fin.res⟩

/-- The incremental erase loop of Erase: subtract every visible method
geometry from the working geometry, short-circuiting once it is empty; a
kernel failure is fatal unless skipped (keeping the working geometry). -/
def eraseChainLoop {G A P : Type} (E : GeomEngine G P) (skipFailures : Bool) :
    List (Feature G A) → OvSt G A × G → Except (OvSt G A) (OvSt G A × G)
  | [], acc => .ok acc
  | y :: ys, (st, g) =>
    match y.geom with
    | none => eraseChainLoop E skipFailures ys (st, g)
    | some yg =>
      match E.difference g yg with
      | none =>
        if skipFailures then
          eraseChainLoop E skipFailures ys ({ st with ret := OGRErr.NONE }, g)
        else .error { st with ret := OGRErr.FAILURE }
      | some g1 =>
        if E.isEmpty g1 then .ok (st, g1)
        else eraseChainLoop E skipFailures ys (st, g1)

/-- The body of Erase's loop for one input feature: run the incremental erase
chain from a clone of the input geometry and emit the non-empty remainder
with the input attribute payload. -/
def eraseInputStep {G A P : Type} (E : GeomEngine G P) (env : OverlayEnv)
    (opts : OverlayOptions) (meth : Layer G A) (resL : ResultLayer G A)
    (savedMeth : Option G) (st : OvSt G A) (x : Feature G A) :
    Except (OvSt G A) (OvSt G A) :=
  withInstalledFilter E env opts savedMeth x st (fun st1 xg inst =>
    match eraseChainLoop E opts.skipFailures
        (visibleFeatures E (some inst) meth.features) (st1, xg) with
    | .error d => .error d
    | .ok (st2, g) =>
      if E.isEmpty g then .ok st2
      else
        let zg := if opts.promoteToMulti then E.promote g else g
        createFeatureStep resL opts.skipFailures ⟨some x.fields, none, zg⟩ st2)

/-- OGRLayer::Erase: one pass over the input features against the snapshotted
method filter, restored at the cleanup label on every exit path. -/
def OGRLayer_Erase {G A P : Type} (E : GeomEngine G P) (env : OverlayEnv)
    (inp meth : Layer G A) (resL : ResultLayer G A) (opts : OverlayOptions) :
    OverlayResult G A :=
  if !env.haveGEOS then
    ⟨OGRErr.UNSUPPORTED_OPERATION, inp.filter, meth.filter, resL.features⟩
  else
    let savedMeth := meth.filter
    let st0 : OvSt G A := ⟨OGRErr.NONE, resL.features, 0, 0⟩
    let fin : OvSt G A :=
      if !env.allocOK then { st0 with ret := OGRErr.NOT_ENOUGH_MEMORY }
      else if !env.schemaOK then { st0 with ret := OGRErr.FAILURE }
      else
        match exceptLoop (eraseInputStep E env opts meth resL savedMeth)
            (visibleFeatures E inp.filter inp.features) st0 with
        | .error d => d
        | .ok s1 => finalProgress env s1
    ⟨fin.ret, inp.filter, savedMeth, fin.res⟩

/-- The input-only leftovers an empty method layer leads to: one result
feature per input feature with a non-null, non-empty geometry, carrying the
input attribute payload and the unmodified geometry. -/
def inputLeftovers {G A P : Type} (E : GeomEngine G P)
    (fs : List (Feature G A)) : List (ResultFeature G A) :=
  fs.filterMap (fun f =>
    match f.geom with
    | none => none
    | some g =>
      if E.isEmpty g then none else some ⟨some f.fields, none, g⟩)

/-- A concrete instantiation of the filter-engine basics on natural-number
geometry tokens, for evaluating the embedded code on concrete inputs: token 0
is the empty geometry, the envelope of token g is the unit-height box from g
to g+1, even tokens are rectangles. -/
def natBasics : FilterBasics Nat :=
  { isEmpty := fun g => decide (g = 0),
    envelope := fun g => ⟨(g : ℚ), (g : ℚ) + 1, 0, 1⟩,
    isRectangle := fun g => decide (g % 2 = 0),
    hasPointInEnvelope := fun _ _ => false }

/-- An exact-predicate engine whose predicates always hold. -/
def allExact : FilterExact Nat Nat :=
  ⟨true, fun _ _ => true, fun _ _ => true⟩

/-- An exact-predicate engine whose predicates never hold: any accept reached
against it provably consulted no exact predicate. -/
def noExact : FilterExact Nat Nat :=
  ⟨true, fun _ _ => false, fun _ _ => false⟩

/-- A concrete instantiation of the overlay geometry kernel on natural-number
geometry tokens: token 0 is empty, dimension is the token mod 3, intersection
is min, difference is truncated subtraction, union is addition, preparation
always succeeds, every predicate holds. -/
def natEngine : GeomEngine Nat Nat :=
  { isEmpty := fun g => decide (g = 0),
    dimension := fun g => g % 3,
    envelope := fun _ => ⟨0, 1, 0, 1⟩,
    intersects := fun _ _ => true,
    intersection := fun a b => some (min a b),
    difference := fun a b => some (a - b),
    unionG := fun a b => some (a + b),
    prepare := fun g => some g,
    prepIntersects := fun _ _ => true,
    prepContains := fun _ _ => false,
    promote := fun g => g,
    sfMatches := fun _ _ => true }

/-- The concrete kernel with a prepared-geometry constructor that always
fails, driving the early-cleanup path of Intersection and Union. -/
def noPrepEngine : GeomEngine Nat Nat :=
  { natEngine with prepare := fun _ => none }

/-- The concrete kernel with multiplication as intersection, so that two
equal-dimension tokens can intersect in a strictly lower-dimensional one
(dimension is the token mod 3: 5 and 5 have dimension 2, their intersection
25 has dimension 1). -/
def lowDimEngine : GeomEngine Nat Nat :=
  { natEngine with intersection := fun a b => some (a * b) }

/-- A concrete layer with no geometry fields and no installed filter. -/
def zeroFieldLayer : FilterLayer Nat Nat :=
  ⟨0, ⟨none, none, false, ⟨0, 0, 0, 0⟩⟩, 0⟩

/-- A concrete spatial-filter state with nothing installed. -/
def emptySF : SpatialFilterState Nat Nat :=
  ⟨none, none, false, ⟨0, 0, 0, 0⟩⟩

/-- A concrete result layer of unknown geometry type whose CreateFeature
always succeeds. -/
def okResultLayer : ResultLayer Nat Nat :=
  ⟨true, [], fun _ => true⟩

lemma contained_not_disjoint (g f : Envelope) (hx : g.MinX ≤ g.MaxX)
    (hy : g.MinY ≤ g.MaxY) (hc : envelopeContained g f = true) :
    envelopesDisjoint g f = false := by
  simp only [envelopeContained, Bool.and_eq_true, decide_eq_true_eq] at hc
  obtain ⟨⟨⟨h1, h2⟩, h3⟩, h4⟩ := hc
  simp only [envelopesDisjoint, Bool.or_eq_false_iff, decide_eq_false_iff_not,
    not_lt]
  exact ⟨⟨⟨by linarith, by linarith⟩, by linarith⟩, by linarith⟩

/-- C2: each of the seven overlay operations snapshots the method layer's
pre-existing spatial filter at entry (Union and SymDifference also the input
layer's) and the cleanup label restores the snapshots on every exit path —
normal completion, fatal per-pair error, user cancellation and
resource-allocation failure — so after the call each source layer's installed
spatial filter equals what it was before the call. -/
theorem C2_overlay_filters_restored {G A P : Type} (E : GeomEngine G P)
    (env : OverlayEnv) (inp meth : Layer G A) (resL : ResultLayer G A)
    (opts : OverlayOptions) :
    ((OGRLayer_Intersection E env inp meth resL opts).inputFilter = inp.filter ∧
      (OGRLayer_Intersection E env inp meth resL opts).methodFilter = meth.filter) ∧
    ((OGRLayer_Union E env inp meth resL opts).inputFilter = inp.filter ∧
      (OGRLayer_Union E env inp meth resL opts).methodFilter = meth.filter) ∧
    ((OGRLayer_SymDifference E env inp meth resL opts).inputFilter = inp.filter ∧
      (OGRLayer_SymDifference E env inp meth resL opts).methodFilter = meth.filter) ∧
    ((OGRLayer_Identity E env inp meth resL opts).inputFilter = inp.filter ∧
      (OGRLayer_Identity E env inp meth resL opts).methodFilter = meth.filter) ∧
    ((OGRLayer_Update E env inp meth resL opts).inputFilter = inp.filter ∧
      (OGRLayer_Update E env inp meth resL opts).methodFilter = meth.filter) ∧
    ((OGRLayer_Clip E env inp meth resL opts).inputFilter = inp.filter ∧
      (OGRLayer_Clip E env inp meth resL opts).methodFilter = meth.filter) ∧
    ((OGRLayer_Erase E env inp meth resL opts).inputFilter = inp.filter ∧
      (OGRLayer_Erase E env inp meth resL opts).methodFilter = meth.filter) := by
  refine ⟨⟨?_, ?_⟩, ⟨?_, ?_⟩, ⟨?_, ?_⟩, ⟨?_, ?_⟩, ⟨?_, ?_⟩, ⟨?_, ?_⟩, ⟨?_, ?_⟩⟩ <;>
    · first
      | (unfold OGRLayer_Intersection; split <;> rfl)
      | (unfold OGRLayer_Union; split <;> rfl)
      | (unfold OGRLayer_SymDifference; split <;> rfl)
      | (unfold OGRLayer_Identity; split <;> rfl)
      | (unfold OGRLayer_Update; split <;> rfl)
      | (unfold OGRLayer_Clip; split <;> rfl)
      | (unfold OGRLayer_Erase; split <;> rfl)

/-- C4: a layer admits at most one active forward iterator: a second begin on
a layer whose re-entrancy flag is set yields an iterator in the error state,
leaves the layer (cursor and flag) completely untouched — no reset, no fetch —
so the first iterator's remaining run is unaffected, and destroying the
error-state iterator also leaves the layer untouched. -/
theorem C4_second_iterator_fails_harmless {F : Type} (L : IterLayer F)
    (h : L.inFeatureIterator = true) :
    (layerBegin L).1.bError = true ∧
    (layerBegin L).2 = L ∧
    featureIteratorDestroy (layerBegin L).1 (layerBegin L).2 = L ∧
    ∀ (fuel : Nat) (it : FeatureIterator F),
      iteratorRun fuel it (layerBegin L).2 = iteratorRun fuel it L := by
  simp [layerBegin, featureIteratorInit, featureIteratorDestroy, h]

theorem C4_second_iterator_fails_harmless_witness :
    (layerBegin (⟨[1, 2], 1, true⟩ : IterLayer Nat)).1.bError = true ∧
    (layerBegin (⟨[1, 2], 1, true⟩ : IterLayer Nat)).2 = ⟨[1, 2], 1, true⟩ :=
  ⟨(C4_second_iterator_fails_harmless ⟨[1, 2], 1, true⟩ rfl).1,
   (C4_second_iterator_fails_harmless ⟨[1, 2], 1, true⟩ rfl).2.1⟩

/-- C10: an iterator constructed in the re-entrancy-error state keeps its EOF
flag true, so the operator!= loop guard against end() fails immediately (a
range-for started while another iterator is active executes zero iterations),
and destroying it leaves the layer's active-iterator flag set. -/
theorem C10_error_iterator_equals_end {F : Type} (L : IterLayer F)
    (h : L.inFeatureIterator = true) :
    (layerBegin L).1.bEOF = true ∧
    featureIteratorNe (layerBegin L).1 (layerEnd (layerBegin L).2) = false ∧
    (featureIteratorDestroy (layerBegin L).1 (layerBegin L).2).inFeatureIterator
      = true := by
  simp [layerBegin, layerEnd, featureIteratorInit, featureIteratorNe,
    featureIteratorDestroy, h]

theorem C10_error_iterator_equals_end_witness :
    featureIteratorNe (layerBegin (⟨[5], 0, true⟩ : IterLayer Nat)).1
        (layerEnd (layerBegin (⟨[5], 0, true⟩ : IterLayer Nat)).2) = false ∧
    (featureIteratorDestroy (layerBegin (⟨[5], 0, true⟩ : IterLayer Nat)).1
        (layerBegin (⟨[5], 0, true⟩ : IterLayer Nat)).2).inFeatureIterator = true :=
  ⟨(C10_error_iterator_equals_end ⟨[5], 0, true⟩ rfl).2.1,
   (C10_error_iterator_equals_end ⟨[5], 0, true⟩ rfl).2.2⟩

/-- C6 counterexample: on a layer with no geometry fields, SetSpatialFilter at
index 0 with a non-null filter geometry is NOT tolerated as a silent no-op:
it reports an error and returns a failure status (the claim asserts index 0
with no geometry fields is always tolerated). -/
theorem C6_counterexample_index0_nonnull_fails :
    (SetSpatialFilter natBasics (fun g => some g) zeroFieldLayer 0 (some 1)).1
        = OGRErr.FAILURE ∧
    (SetSpatialFilter natBasics (fun g => some g) zeroFieldLayer 0 (some 1)).2.2
        = true := by
  constructor <;> rfl

/-- C6 amended: SetSpatialFilter tolerates index 0 with no geometry fields as
a silent no-op only for a null filter geometry; index 0 with a non-null
filter and no geometry fields fails exactly like any other invalid index
(negative, or at least the geometry-field count): an error is reported, a
failure status is returned, and the layer's filter state is unchanged. -/
theorem C6_amended_validation {G P : Type} (B : FilterBasics G)
    (prepare : G → Option P) (L : FilterLayer G P) :
    (L.geomFieldCount = 0 → L.sf.filterGeom = none → L.iGeomFieldFilter = 0 →
      SetSpatialFilter B prepare L 0 none = (OGRErr.NONE, L, false)) ∧
    (L.geomFieldCount = 0 → ∀ g,
      SetSpatialFilter B prepare L 0 (some g) = (OGRErr.FAILURE, L, true)) ∧
    (∀ (i : Int) (flt : Option G), i ≠ 0 → (i < 0 ∨ L.geomFieldCount ≤ i) →
      SetSpatialFilter B prepare L i flt = (OGRErr.FAILURE, L, true)) := by
  obtain ⟨cnt, ⟨fg, pfg, fie, fe⟩, idx⟩ := L
  refine ⟨?_, ?_, ?_⟩
  · intro h1 h2 h3
    simp only at h1 h2 h3
    subst h1; subst h2; subst h3
    simp [SetSpatialFilter, ISetSpatialFilter, InstallFilter]
  · intro h1 g
    simp only at h1
    subst h1
    simp [SetSpatialFilter, ValidateGeometryFieldIndexForSetSpatialFilter]
  · intro i flt hne hinv
    simp only at hinv
    have hnand : ¬(i = 0 ∧ flt.isNone = true ∧ cnt = 0) := by
      intro hcon; exact hne hcon.1
    simp [SetSpatialFilter, ValidateGeometryFieldIndexForSetSpatialFilter,
      hne, hnand, hinv]

theorem C6_amended_validation_witness :
    SetSpatialFilter natBasics (fun g => some g) zeroFieldLayer 0 none
        = (OGRErr.NONE, zeroFieldLayer, false) ∧
    SetSpatialFilter natBasics (fun g => some g) zeroFieldLayer (-1) none
        = (OGRErr.FAILURE, zeroFieldLayer, true) :=
  ⟨(C6_amended_validation natBasics (fun g => some g) zeroFieldLayer).1
      rfl rfl rfl,
   (C6_amended_validation natBasics (fun g => some g) zeroFieldLayer).2.2
      (-1) none (by decide) (by decide)⟩

/-- C8 counterexample: the prepared-geometry handle is NOT built lazily.
Immediately after InstallFilter installs a non-null filter — before any
filter evaluation — the handle already exists (the source compiles the filter
as a prepared geometry inside InstallFilter itself). -/
theorem C8_counterexample_eager_prepared :
    (InstallFilter natBasics (fun g => some g) emptySF (some 5)).1.preparedFilterGeom
      = some 5 := rfl

/-- C8 amended: the prepared-geometry handle is constructed eagerly by
InstallFilter whenever a non-null filter is installed (it becomes the
engine's prepared geometry of the new filter, so any previous handle is
gone), and it is destroyed when the installed filter is cleared. -/
theorem C8_amended_prepared_lifecycle {G P : Type} (B : FilterBasics G)
    (prepare : G → Option P) (st : SpatialFilterState G P) :
    (∀ f, (InstallFilter B prepare st (some f)).1.preparedFilterGeom = prepare f) ∧
    (st.filterGeom.isSome = true →
      (InstallFilter B prepare st none).1.preparedFilterGeom = none) := by
  obtain ⟨fg, pfg, fie, fe⟩ := st
  constructor
  · intro f
    cases fg <;> rfl
  · intro h
    cases fg with
    | none => simp at h
    | some g => rfl

theorem C8_amended_prepared_lifecycle_witness :
    (InstallFilter natBasics (fun g => some g) emptySF (some 7)).1.preparedFilterGeom
        = some 7 ∧
    (InstallFilter natBasics (fun g => some g)
        ⟨some 2, some 2, true, ⟨2, 3, 0, 1⟩⟩ none).1.preparedFilterGeom = none :=
  ⟨(C8_amended_prepared_lifecycle natBasics (fun g => some g) emptySF).1 7,
   (C8_amended_prepared_lifecycle natBasics (fun g => some g)
      ⟨some 2, some 2, true, ⟨2, 3, 0, 1⟩⟩).2 rfl⟩

/-- C1: FilterGeometry behaves as a three-tier test: with no installed filter
it returns true for every geometry; with a filter installed, a null or empty
input geometry returns false; a geometry whose envelope does not intersect
the filter envelope returns false; and when the filter is exactly its own
rectangular envelope and the geometry's (well-formed) envelope is fully
contained in the filter envelope it returns true for every choice of
exact-predicate engine — hence without invoking any exact predicate. -/
theorem C1_FilterGeometry_three_tier {G P : Type} (B : FilterBasics G)
    (st : SpatialFilterState G P) :
    (st.filterGeom = none →
      ∀ (X : FilterExact G P) (g : Option G), FilterGeometry B X st g = true) ∧
    (st.filterGeom.isSome = true →
      ∀ (X : FilterExact G P), FilterGeometry B X st none = false ∧
        ∀ geo, B.isEmpty geo = true → FilterGeometry B X st (some geo) = false) ∧
    (st.filterGeom.isSome = true →
      ∀ (X : FilterExact G P) (geo : G),
        envelopesDisjoint (B.envelope geo) st.filterEnvelope = true →
        FilterGeometry B X st (some geo) = false) ∧
    (st.filterIsEnvelope = true →
      ∀ (X : FilterExact G P) (geo : G), B.isEmpty geo = false →
        (B.envelope geo).MinX ≤ (B.envelope geo).MaxX →
        (B.envelope geo).MinY ≤ (B.envelope geo).MaxY →
        envelopeContained (B.envelope geo) st.filterEnvelope = true →
        FilterGeometry B X st (some geo) = true) := by
  obtain ⟨fg, pfg, fie, fenv⟩ := st
  refine ⟨?_, ?_, ?_, ?_⟩
  · intro h X g
    simp only at h
    subst h
    rfl
  · intro h X
    cases fg with
    | none => simp at h
    | some f =>
      refine ⟨rfl, ?_⟩
      intro geo hempty
      simp [FilterGeometry, hempty]
  · intro h X geo hdisj
    cases fg with
    | none => simp at h
    | some f =>
      by_cases hempty : B.isEmpty geo = true
      · simp [FilterGeometry, hempty]
      · simp only [Bool.not_eq_true] at hempty
        simp [FilterGeometry, hempty, hdisj]
  · intro h X geo hempty hx hy hcont
    simp only at h
    subst h
    cases fg with
    | none => rfl
    | some f =>
      have hdisj := contained_not_disjoint (B.envelope geo) fenv hx hy hcont
      simp [FilterGeometry, hempty, hdisj, hcont]

theorem C1_FilterGeometry_three_tier_witness :
    FilterGeometry natBasics noExact emptySF (some 0) = true ∧
    FilterGeometry natBasics allExact
        (⟨some 2, none, true, ⟨0, 10, 0, 10⟩⟩ : SpatialFilterState Nat Nat)
        none = false ∧
    FilterGeometry natBasics allExact
        (⟨some 2, none, true, ⟨0, 10, 0, 10⟩⟩ : SpatialFilterState Nat Nat)
        (some 0) = false ∧
    FilterGeometry natBasics allExact
        (⟨some 2, none, true, ⟨0, 10, 0, 10⟩⟩ : SpatialFilterState Nat Nat)
        (some 20) = false ∧
    FilterGeometry natBasics noExact
        (⟨some 2, none, true, ⟨0, 10, 0, 10⟩⟩ : SpatialFilterState Nat Nat)
        (some 3) = true :=
  ⟨(C1_FilterGeometry_three_tier natBasics emptySF).1 rfl noExact (some 0),
   ((C1_FilterGeometry_three_tier natBasics
      ⟨some 2, none, true, ⟨0, 10, 0, 10⟩⟩).2.1 rfl allExact).1,
   ((C1_FilterGeometry_three_tier natBasics
      ⟨some 2, none, true, ⟨0, 10, 0, 10⟩⟩).2.1 rfl allExact).2 0 (by decide),
   (C1_FilterGeometry_three_tier natBasics
      ⟨some 2, none, true, ⟨0, 10, 0, 10⟩⟩).2.2.1 rfl allExact 20
     (by norm_num [envelopesDisjoint, natBasics]),
   (C1_FilterGeometry_three_tier natBasics
      ⟨some 2, none, true, ⟨0, 10, 0, 10⟩⟩).2.2.2 rfl noExact 3 (by decide)
     (by norm_num [natBasics]) (by norm_num [natBasics])
     (by norm_num [envelopeContained, natBasics])⟩

/-- C7: when the result schema is auto-populated and no INPUT_PREFIX or
METHOD_PREFIX is supplied, a field name declared by both schemas is renamed
input_<name> on the input side and method_<name> on the method side (both
renamed fields are among the created names); a non-colliding field keeps its
name; and the renaming triggers only when no explicit prefix is given for the
colliding side and both schemas declare that exact name. -/
theorem C7_schema_collision_renaming (inputFields methodFields : List String)
    (n : String) :
    (n ∈ inputFields → n ∈ methodFields →
      inputFieldResultName true none none methodFields n = "input_" ++ n ∧
      methodFieldResultName true none none inputFields n = "method_" ++ n ∧
      ("input_" ++ n) ∈ setResultSchemaAutoNames inputFields methodFields
          true true true true true none none ∧
      ("method_" ++ n) ∈ setResultSchemaAutoNames inputFields methodFields
          true true true true true none none) ∧
    (n ∉ methodFields →
      inputFieldResultName true none none methodFields n = n) ∧
    (n ∉ inputFields →
      methodFieldResultName true none none inputFields n = n) ∧
    (∀ (mp : Bool) (methPfx : Option String),
      inputFieldResultName mp none methPfx methodFields n ≠ n →
      n ∈ methodFields ∧ methPfx = none ∧ mp = true) ∧
    (∀ (mp : Bool) (inPfx : Option String),
      methodFieldResultName mp inPfx none inputFields n ≠ n →
      n ∈ inputFields ∧ inPfx = none ∧ mp = true) := by
  refine ⟨?_, ?_, ?_, ?_, ?_⟩
  · intro hin hmeth
    have hcm : methodFields.contains n = true := by
      simpa [List.contains] using List.elem_iff.2 hmeth
    have hci : inputFields.contains n = true := by
      simpa [List.contains] using List.elem_iff.2 hin
    have h1 : inputFieldResultName true none none methodFields n
        = "input_" ++ n := by
      unfold inputFieldResultName
      simp only [hcm]
      simp [collisionSetsBuilt]
    have h2 : methodFieldResultName true none none inputFields n
        = "method_" ++ n := by
      unfold methodFieldResultName
      simp only [hci]
      simp [collisionSetsBuilt]
    refine ⟨h1, h2, ?_, ?_⟩
    · apply List.mem_append_left
      exact h1 ▸ List.mem_map_of_mem _ hin
    · apply List.mem_append_right
      simp only [Bool.and_self, if_pos]
      exact h2 ▸ List.mem_map_of_mem _ hmeth
  · intro hnot
    have hcm : methodFields.contains n = false := by
      rw [Bool.eq_false_iff]
      intro hcon
      exact hnot (List.elem_iff.1 (by simpa [List.contains] using hcon))
    unfold inputFieldResultName
    simp only [hcm]
    simp
  · intro hnot
    have hci : inputFields.contains n = false := by
      rw [Bool.eq_false_iff]
      intro hcon
      exact hnot (List.elem_iff.1 (by simpa [List.contains] using hcon))
    unfold methodFieldResultName
    simp only [hci]
    simp
  · intro mp methPfx hne
    by_cases hcond : (collisionSetsBuilt mp none methPfx &&
        methodFields.contains n) = true
    · have hparts := hcond
      simp only [collisionSetsBuilt, Bool.and_eq_true, Option.isNone_none]
        at hparts
      obtain ⟨⟨⟨hmp, -⟩, hmx⟩, hcontains⟩ := hparts
      refine ⟨?_, ?_, hmp⟩
      · exact List.elem_iff.1 (by simpa [List.contains] using hcontains)
      · exact Option.isNone_iff_eq_none.1 hmx
    · simp only [Bool.not_eq_true] at hcond
      refine absurd ?_ hne
      unfold inputFieldResultName
      simp only [hcond]
      simp
  · intro mp inPfx hne
    by_cases hcond : (collisionSetsBuilt mp inPfx none &&
        inputFields.contains n) = true
    · have hparts := hcond
      simp only [collisionSetsBuilt, Bool.and_eq_true, Option.isNone_none]
        at hparts
      obtain ⟨⟨⟨hmp, hix⟩, -⟩, hcontains⟩ := hparts
      refine ⟨?_, ?_, hmp⟩
      · exact List.elem_iff.1 (by simpa [List.contains] using hcontains)
      · exact Option.isNone_iff_eq_none.1 hix
    · simp only [Bool.not_eq_true] at hcond
      refine absurd ?_ hne
      unfold methodFieldResultName
      simp only [hcond]
      simp

theorem C7_schema_collision_renaming_witness :
    inputFieldResultName true none none ["name"] "name" = "input_" ++ "name" ∧
    methodFieldResultName true none none ["name", "area"] "name"
        = "method_" ++ "name" ∧
    ("input_" ++ "name") ∈ setResultSchemaAutoNames ["name", "area"] ["name"]
        true true true true true none none ∧
    inputFieldResultName true none none ["name"] "area" = "area" :=
  ⟨((C7_schema_collision_renaming ["name", "area"] ["name"] "name").1
      (by decide) (by decide)).1,
   ((C7_schema_collision_renaming ["name", "area"] ["name"] "name").1
      (by decide) (by decide)).2.1,
   ((C7_schema_collision_renaming ["name", "area"] ["name"] "name").1
      (by decide) (by decide)).2.2.1,
   (C7_schema_collision_renaming ["name", "area"] ["name"] "area").2.1
      (by decide)⟩

/-- C5: in Intersection and Union the KEEP_LOWER_DIMENSION_GEOMETRIES option
is honoured only when the result layer's declared geometry type is unknown —
with any other result geometry type the requested value is immaterial (the
option is forced off, with only a debug note) — and with the option
effectively off, a feature pair whose two geometries have equal dimension and
whose computed intersection has strictly lower dimension contributes no
result feature (and, in Union's pair step, leaves the running difference
untouched). -/
theorem C5_keep_lower_dimension {G A P : Type} (E : GeomEngine G P) :
    (∀ (env : OverlayEnv) (inp meth : Layer G A) (resL : ResultLayer G A)
        (opts : OverlayOptions) (b1 b2 : Bool),
        resL.geomTypeUnknown = false →
        OGRLayer_Intersection E env inp meth resL
            { opts with keepLowerDimGeom := b1 }
          = OGRLayer_Intersection E env inp meth resL
            { opts with keepLowerDimGeom := b2 }) ∧
    (∀ (env : OverlayEnv) (inp meth : Layer G A) (resL : ResultLayer G A)
        (opts : OverlayOptions) (b1 b2 : Bool),
        resL.geomTypeUnknown = false →
        OGRLayer_Union E env inp meth resL
            { opts with keepLowerDimGeom := b1 }
          = OGRLayer_Union E env inp meth resL
            { opts with keepLowerDimGeom := b2 }) ∧
    (∀ (opts : OverlayOptions) (resL : ResultLayer G A) (x : Feature G A)
        (xg : G) (xprep : Option P) (st : OvSt G A) (y : Feature G A)
        (yg z : G),
        opts.pretestContainment = false →
        y.geom = some yg →
        E.intersection xg yg = some z →
        E.dimension xg = E.dimension yg →
        E.dimension z < E.dimension xg →
        intersectionPairStep E opts resL x xg xprep false st y = .ok st) ∧
    (∀ (opts : OverlayOptions) (resL : ResultLayer G A) (x : Feature G A)
        (xg : G) (xprep : Option P) (acc : OvSt G A × Option G)
        (y : Feature G A) (yg z : G),
        y.geom = some yg →
        E.intersection xg yg = some z →
        E.dimension xg = E.dimension yg →
        E.dimension z < E.dimension xg →
        diffChainPairStep E opts resL x xg xprep false acc y = .ok acc) := by
  refine ⟨?_, ?_, ?_, ?_⟩
  · intro env inp meth resL opts b1 b2 h
    unfold OGRLayer_Intersection
    simp only [h, Bool.and_false]
    rfl
  · intro env inp meth resL opts b1 b2 h
    unfold OGRLayer_Union
    simp only [h, Bool.and_false]
    rfl
  · intro opts resL x xg xprep st y yg z hpc hy hi hdim hlt
    unfold intersectionPairStep
    rw [hy]
    simp only [hpc, Bool.false_and]
    cases xprep with
    | none =>
      simp [hi, hdim, hlt]
      try (intro h1 h2; omega)
    | some p =>
      cases hpi : E.prepIntersects p yg <;>
        · simp [hpi, hi, hdim, hlt]
          try (intro h1 h2; omega)
  · intro opts resL x xg xprep acc y yg z hy hi hdim hlt
    obtain ⟨st, diff⟩ := acc
    unfold diffChainPairStep
    rw [hy]
    cases xprep with
    | none =>
      simp [hi, hdim, hlt]
      try (intro h1 h2; omega)
    | some p =>
      cases hpi : E.prepIntersects p yg <;>
        · simp [hpi, hi, hdim, hlt]
          try (intro h1 h2; omega)

theorem C5_keep_lower_dimension_witness :
    OGRLayer_Intersection natEngine defaultOverlayEnv
        (⟨[⟨1, some 5⟩], none⟩ : Layer Nat Nat) ⟨[⟨2, some 8⟩], none⟩
        ⟨false, [], fun _ => true⟩
        { defaultOverlayOptions with keepLowerDimGeom := true }
      = OGRLayer_Intersection natEngine defaultOverlayEnv
        ⟨[⟨1, some 5⟩], none⟩ ⟨[⟨2, some 8⟩], none⟩
        ⟨false, [], fun _ => true⟩
        { defaultOverlayOptions with keepLowerDimGeom := false } ∧
    intersectionPairStep lowDimEngine defaultOverlayOptions okResultLayer
        ⟨1, some 5⟩ 5 none false ⟨OGRErr.NONE, [], 0, 0⟩ ⟨2, some 5⟩
      = .ok ⟨OGRErr.NONE, [], 0, 0⟩ ∧
    diffChainPairStep lowDimEngine defaultOverlayOptions okResultLayer
        ⟨1, some 5⟩ 5 none false (⟨OGRErr.NONE, [], 0, 0⟩, some 5) ⟨2, some 5⟩
      = .ok (⟨OGRErr.NONE, [], 0, 0⟩, some 5) :=
  ⟨(C5_keep_lower_dimension natEngine).1 defaultOverlayEnv _ _ _
      defaultOverlayOptions true false rfl,
   (C5_keep_lower_dimension lowDimEngine).2.2.1 defaultOverlayOptions
      okResultLayer ⟨1, some 5⟩ 5 none ⟨OGRErr.NONE, [], 0, 0⟩ ⟨2, some 5⟩
      5 25 rfl rfl rfl (by decide) (by decide),
   (C5_keep_lower_dimension lowDimEngine).2.2.2 defaultOverlayOptions
      okResultLayer ⟨1, some 5⟩ 5 none (⟨OGRErr.NONE, [], 0, 0⟩, some 5)
      ⟨2, some 5⟩ 5 25 rfl rfl (by decide) (by decide)⟩

lemma visibleFeatures_none {G A P : Type} (E : GeomEngine G P)
    (fs : List (Feature G A)) : visibleFeatures E none fs = fs := by
  simp [visibleFeatures, passesSpatialFilter]

/-- C9: in Intersection and Union with USE_PREPARED_GEOMETRIES enabled, a
failure to create the prepared geometry for an input feature jumps straight
to the cleanup label without touching ret, which still holds OGRERR_NONE, so
the operation returns a success status; the remaining input features are
never processed (the outcome equals a run whose input layer ends at the
failing feature) and the result layer holds only what was produced before. -/
theorem C9_prepared_failure_success {G A P : Type} (E : GeomEngine G P)
    (inp meth : Layer G A) (resL : ResultLayer G A) (opts : OverlayOptions)
    (x : Feature G A) (rest : List (Feature G A)) (g : G)
    (hfeat : inp.features = x :: rest) (hif : inp.filter = none)
    (hmf : meth.filter = none) (hx : x.geom = some g)
    (hprep : E.prepare g = none) (huse : opts.usePreparedGeometries = true)
    (hres : resL.features = [])
    (hext : ∀ me, layerExtent E meth = some me →
        envelopesDisjoint (E.envelope g) me = false) :
    ((OGRLayer_Intersection E defaultOverlayEnv inp meth resL opts).ret
        = OGRErr.NONE ∧
      (OGRLayer_Intersection E defaultOverlayEnv inp meth resL opts).res = [] ∧
      OGRLayer_Intersection E defaultOverlayEnv inp meth resL opts
        = OGRLayer_Intersection E defaultOverlayEnv
            { inp with features := [x] } meth resL opts) ∧
    ((OGRLayer_Union E defaultOverlayEnv inp meth resL opts).ret
        = OGRErr.NONE ∧
      (OGRLayer_Union E defaultOverlayEnv inp meth resL opts).res = [] ∧
      OGRLayer_Union E defaultOverlayEnv inp meth resL opts
        = OGRLayer_Union E defaultOverlayEnv
            { inp with features := [x] } meth resL opts) := by
  have hIstep : ∀ (keep : Bool) (st : OvSt G A),
      intersectionOuterStep E defaultOverlayEnv opts meth resL none
        (layerExtent E meth) keep st x = .error st := by
    intro keep st
    cases hE : layerExtent E meth with
    | none =>
      unfold intersectionOuterStep
      simp [progressCheck, defaultOverlayEnv, setFilterFrom, hx, huse, hprep]
    | some me =>
      unfold intersectionOuterStep
      simp [progressCheck, defaultOverlayEnv, setFilterFrom, hx, huse, hprep,
        hext me hE]
  have hUstep : ∀ (keep : Bool) (st : OvSt G A),
      unionInputStep E defaultOverlayEnv opts meth resL none keep st x
        = .error st := by
    intro keep st
    unfold unionInputStep withInstalledFilter
    simp [progressCheck, defaultOverlayEnv, setFilterFrom, hx, huse, hprep]
  have hI : ∀ fs,
      OGRLayer_Intersection E defaultOverlayEnv
          { inp with features := x :: fs } meth resL opts
        = ⟨OGRErr.NONE, inp.filter, none, resL.features⟩ := by
    intro fs
    have hIstep1 := hIstep
    simp only [defaultOverlayEnv] at hIstep1
    unfold OGRLayer_Intersection
    rw [hmf]
    simp only [defaultOverlayEnv, Bool.not_true, Bool.false_eq_true, if_false,
      hif]
    rw [visibleFeatures_none]
    simp [exceptLoop, hIstep1]
  have hU : ∀ fs,
      OGRLayer_Union E defaultOverlayEnv
          { inp with features := x :: fs } meth resL opts
        = ⟨OGRErr.NONE, inp.filter, none, resL.features⟩ := by
    intro fs
    have hUstep1 := hUstep
    simp only [defaultOverlayEnv] at hUstep1
    unfold OGRLayer_Union
    rw [hmf]
    simp only [defaultOverlayEnv, Bool.not_true, Bool.false_eq_true, if_false,
      hif]
    rw [visibleFeatures_none]
    simp [exceptLoop, hUstep1]
  have hinp : { inp with features := x :: rest } = inp := by
    cases inp
    simp only at hfeat
    simp [hfeat]
  have hI1 := hI rest
  have hI2 := hI []
  have hU1 := hU rest
  have hU2 := hU []
  rw [hinp] at hI1 hU1
  refine ⟨⟨?_, ?_, ?_⟩, ?_, ?_, ?_⟩
  · rw [hI1]
  · rw [hI1]
    exact hres
  · rw [hI1, hI2]
  · rw [hU1]
  · rw [hU1]
    exact hres
  · rw [hU1, hU2]

theorem C9_prepared_failure_success_witness :
    (OGRLayer_Intersection noPrepEngine defaultOverlayEnv
        (⟨[⟨1, some 5⟩, ⟨2, some 6⟩], none⟩ : Layer Nat Nat)
        ⟨[⟨3, some 4⟩], none⟩ okResultLayer defaultOverlayOptions).ret
      = OGRErr.NONE ∧
    (OGRLayer_Union noPrepEngine defaultOverlayEnv
        (⟨[⟨1, some 5⟩, ⟨2, some 6⟩], none⟩ : Layer Nat Nat)
        ⟨[⟨3, some 4⟩], none⟩ okResultLayer defaultOverlayOptions).res = [] :=
  ⟨(C9_prepared_failure_success noPrepEngine
      ⟨[⟨1, some 5⟩, ⟨2, some 6⟩], none⟩ ⟨[⟨3, some 4⟩], none⟩ okResultLayer
      defaultOverlayOptions ⟨1, some 5⟩ [⟨2, some 6⟩] 5 rfl rfl rfl rfl rfl
      rfl rfl (by
        intro me hme
        rw [show layerExtent noPrepEngine
            (⟨[⟨3, some 4⟩], none⟩ : Layer Nat Nat) = some ⟨0, 1, 0, 1⟩
          from rfl] at hme
        cases hme
        norm_num [envelopesDisjoint, noPrepEngine, natEngine])).1.1,
   (C9_prepared_failure_success noPrepEngine
      ⟨[⟨1, some 5⟩, ⟨2, some 6⟩], none⟩ ⟨[⟨3, some 4⟩], none⟩ okResultLayer
      defaultOverlayOptions ⟨1, some 5⟩ [⟨2, some 6⟩] 5 rfl rfl rfl rfl rfl
      rfl rfl (by
        intro me hme
        rw [show layerExtent noPrepEngine
            (⟨[⟨3, some 4⟩], none⟩ : Layer Nat Nat) = some ⟨0, 1, 0, 1⟩
          from rfl] at hme
        cases hme
        norm_num [envelopesDisjoint, noPrepEngine, natEngine])).2.2.1⟩

/-- C3 counterexample: with an empty method layer, Union does NOT reproduce
every input feature: an input feature whose geometry is null contributes no
result feature (set_filter_from yields a null x_geom and the loop continues),
so a one-feature input layer yields an empty result. -/
theorem C3_counterexample_union_drops_null_geometry :
    (OGRLayer_Union natEngine defaultOverlayEnv
        (⟨[⟨7, none⟩], none⟩ : Layer Nat Nat) ⟨[], none⟩ okResultLayer
        defaultOverlayOptions).res = [] ∧
    (⟨[⟨7, none⟩], none⟩ : Layer Nat Nat).features.length = 1 :=
  ⟨rfl, rfl⟩

lemma exceptLoop_const {α σ ε : Type} (step : σ → α → Except ε σ)
    (h : ∀ st x, step st x = .ok st) :
    ∀ fs st, exceptLoop step fs st = .ok st := by
  intro fs
  induction fs with
  | nil => intro st; rfl
  | cons x xs ih =>
    intro st
    unfold exceptLoop
    rw [h st x]
    exact ih st

lemma inputLeftovers_cons {G A P : Type} (E : GeomEngine G P)
    (x : Feature G A) (fs : List (Feature G A)) :
    inputLeftovers E (x :: fs)
      = (match x.geom with
          | none => []
          | some g =>
            if E.isEmpty g then []
            else [(⟨some x.fields, none, g⟩ : ResultFeature G A)])
        ++ inputLeftovers E fs := by
  unfold inputLeftovers
  rw [List.filterMap_cons]
  cases hxg : x.geom with
  | none => simp
  | some g => cases hE : E.isEmpty g <;> simp [hE]

lemma intersectionOuterStep_empty_method {G A P : Type} (E : GeomEngine G P)
    (meth : Layer G A) (resL : ResultLayer G A) (ext : Option Envelope)
    (keep : Bool) (hm : meth.features = [])
    (hprep : ∀ g : G, (E.prepare g).isSome = true)
    (st : OvSt G A) (x : Feature G A) :
    intersectionOuterStep E defaultOverlayEnv defaultOverlayOptions meth resL
      none ext keep st x = .ok st := by
  unfold intersectionOuterStep
  cases hxg : x.geom with
  | none =>
    cases ext <;>
      simp [progressCheck, defaultOverlayEnv, setFilterFrom, hxg]
  | some g =>
    obtain ⟨p, hp⟩ := Option.isSome_iff_exists.1 (hprep g)
    cases ext with
    | none =>
      simp [progressCheck, defaultOverlayEnv, setFilterFrom, hxg,
        defaultOverlayOptions, hp, hm, visibleFeatures, exceptLoop]
    | some me =>
      cases hd : envelopesDisjoint (E.envelope g) me <;>
        simp [progressCheck, defaultOverlayEnv, setFilterFrom, hxg, hd,
          defaultOverlayOptions, hp, hm, visibleFeatures, exceptLoop]

lemma clipInputStep_empty_method {G A P : Type} (E : GeomEngine G P)
    (meth : Layer G A) (resL : ResultLayer G A) (hm : meth.features = [])
    (st : OvSt G A) (x : Feature G A) :
    clipInputStep E defaultOverlayEnv defaultOverlayOptions meth resL none st x
      = .ok st := by
  unfold clipInputStep withInstalledFilter
  cases hxg : x.geom with
  | none => simp [progressCheck, defaultOverlayEnv, setFilterFrom, hxg]
  | some g =>
    simp [progressCheck, defaultOverlayEnv, setFilterFrom, hxg, hm,
      visibleFeatures, exceptLoop]

lemma eraseInputStep_empty_method {G A P : Type} (E : GeomEngine G P)
    (meth : Layer G A) (resL : ResultLayer G A) (hm : meth.features = [])
    (hc : ∀ n, resL.createOK n = true) (st : OvSt G A) (x : Feature G A) :
    eraseInputStep E defaultOverlayEnv defaultOverlayOptions meth resL none st x
      = .ok (match x.geom with
        | none => st
        | some g =>
          if E.isEmpty g then st
          else { st with res := st.res ++ [⟨some x.fields, none, g⟩],
                         ret := OGRErr.NONE }) := by
  unfold eraseInputStep withInstalledFilter
  cases hxg : x.geom with
  | none => simp [progressCheck, defaultOverlayEnv, setFilterFrom, hxg]
  | some g =>
    cases hE : E.isEmpty g <;>
      simp [progressCheck, defaultOverlayEnv, setFilterFrom, hxg, hm,
        visibleFeatures, eraseChainLoop, hE, createFeatureStep, hc,
        defaultOverlayOptions]

lemma unionInputStep_empty_method {G A P : Type} (E : GeomEngine G P)
    (meth : Layer G A) (resL : ResultLayer G A) (keep : Bool)
    (hm : meth.features = []) (hc : ∀ n, resL.createOK n = true)
    (hprep : ∀ g : G, (E.prepare g).isSome = true)
    (st : OvSt G A) (x : Feature G A) :
    unionInputStep E defaultOverlayEnv defaultOverlayOptions meth resL none
        keep st x
      = .ok (match x.geom with
        | none => st
        | some g =>
          if E.isEmpty g then st
          else { st with res := st.res ++ [⟨some x.fields, none, g⟩],
                         ret := OGRErr.NONE }) := by
  unfold unionInputStep withInstalledFilter
  cases hxg : x.geom with
  | none => simp [progressCheck, defaultOverlayEnv, setFilterFrom, hxg]
  | some g =>
    obtain ⟨p, hp⟩ := Option.isSome_iff_exists.1 (hprep g)
    cases hE : E.isEmpty g <;>
      simp [progressCheck, defaultOverlayEnv, setFilterFrom, hxg, hm, hp,
        visibleFeatures, exceptLoop, leftoverCreate, hE, createFeatureStep,
        hc, defaultOverlayOptions]

lemma leftoverLoop_empty_method {G A P : Type} (E : GeomEngine G P)
    (step : OvSt G A → Feature G A → Except (OvSt G A) (OvSt G A))
    (hstep : ∀ st x, step st x
      = .ok (match x.geom with
        | none => st
        | some g =>
          if E.isEmpty g then st
          else { st with res := st.res ++ [⟨some x.fields, none, g⟩],
                         ret := OGRErr.NONE })) :
    ∀ fs (st : OvSt G A), ∃ s, exceptLoop step fs st = .ok s ∧
      s.res = st.res ++ inputLeftovers E fs := by
  intro fs
  induction fs with
  | nil =>
    intro st
    exact ⟨st, rfl, by simp [inputLeftovers]⟩
  | cons x xs ih =>
    intro st
    unfold exceptLoop
    rw [hstep st x, inputLeftovers_cons]
    cases hxg : x.geom with
    | none =>
      obtain ⟨s, hs, hr⟩ := ih st
      exact ⟨s, hs, by rw [hr]; simp⟩
    | some g =>
      cases hE : E.isEmpty g with
      | true =>
        obtain ⟨s, hs, hr⟩ := ih st
        refine ⟨s, ?_, ?_⟩
        · simpa [hE] using hs
        · rw [hr]; simp [hE]
      | false =>
        obtain ⟨s, hs, hr⟩ :=
          ih { st with res := st.res ++ [⟨some x.fields, none, g⟩],
                       ret := OGRErr.NONE }
        refine ⟨s, ?_, ?_⟩
        · simpa [hE] using hs
        · rw [hr]; simp [hE]

/-- C3 amended: for any input layer and a method layer with zero features
(default options and environment, both layers without pre-installed filters,
an initially empty result layer whose CreateFeature succeeds, a prepared
constructor that succeeds): Intersection produces zero result features; Erase
produces one result feature per input feature with a non-null, non-empty
geometry, geometry unmodified; Clip produces zero result features; and Union
produces exactly those input features that have a non-null, non-empty
geometry, unmodified, as input-only leftovers. -/
theorem C3_amended_empty_method_layer {G A P : Type} (E : GeomEngine G P)
    (inp meth : Layer G A) (resL : ResultLayer G A)
    (hm : meth.features = []) (hmf : meth.filter = none)
    (hif : inp.filter = none) (hres : resL.features = [])
    (hc : ∀ n, resL.createOK n = true)
    (hprep : ∀ g : G, (E.prepare g).isSome = true) :
    (OGRLayer_Intersection E defaultOverlayEnv inp meth resL
        defaultOverlayOptions).res = [] ∧
    (OGRLayer_Erase E defaultOverlayEnv inp meth resL
        defaultOverlayOptions).res = inputLeftovers E inp.features ∧
    (OGRLayer_Clip E defaultOverlayEnv inp meth resL
        defaultOverlayOptions).res = [] ∧
    (OGRLayer_Union E defaultOverlayEnv inp meth resL
        defaultOverlayOptions).res = inputLeftovers E inp.features := by
  have hIstep := intersectionOuterStep_empty_method E meth resL
    (layerExtent E meth)
    (defaultOverlayOptions.keepLowerDimGeom && resL.geomTypeUnknown) hm hprep
  have hCstep := clipInputStep_empty_method E meth resL hm
  have hEloop := leftoverLoop_empty_method E
    (eraseInputStep E defaultOverlayEnv defaultOverlayOptions meth resL none)
    (eraseInputStep_empty_method E meth resL hm hc)
  have hUloop := leftoverLoop_empty_method E
    (unionInputStep E defaultOverlayEnv defaultOverlayOptions meth resL none
      (defaultOverlayOptions.keepLowerDimGeom && resL.geomTypeUnknown))
    (unionInputStep_empty_method E meth resL
      (defaultOverlayOptions.keepLowerDimGeom && resL.geomTypeUnknown)
      hm hc hprep)
  simp only [defaultOverlayEnv] at hIstep hCstep hEloop hUloop
  refine ⟨?_, ?_, ?_, ?_⟩
  · unfold OGRLayer_Intersection
    rw [hmf]
    simp only [defaultOverlayEnv, Bool.not_true, Bool.false_eq_true, if_false,
      hif]
    rw [visibleFeatures_none,
      exceptLoop_const _ hIstep inp.features ⟨OGRErr.NONE, resL.features, 0, 0⟩]
    simp [finalProgress, hres]
  · unfold OGRLayer_Erase
    rw [hmf]
    simp only [defaultOverlayEnv, Bool.not_true, Bool.false_eq_true, if_false,
      hif]
    rw [visibleFeatures_none]
    obtain ⟨s, hs, hr⟩ := hEloop inp.features ⟨OGRErr.NONE, resL.features, 0, 0⟩
    rw [hs]
    simp [finalProgress, hr, hres]
  · unfold OGRLayer_Clip
    rw [hmf]
    simp only [defaultOverlayEnv, Bool.not_true, Bool.false_eq_true, if_false,
      hif]
    rw [visibleFeatures_none,
      exceptLoop_const _ hCstep inp.features ⟨OGRErr.NONE, resL.features, 0, 0⟩]
    simp [finalProgress, hres]
  · unfold OGRLayer_Union
    rw [hmf]
    simp only [defaultOverlayEnv, Bool.not_true, Bool.false_eq_true, if_false,
      hif]
    rw [visibleFeatures_none]
    obtain ⟨s, hs, hr⟩ := hUloop inp.features ⟨OGRErr.NONE, resL.features, 0, 0⟩
    rw [hs]
    rw [hm]
    simp [visibleFeatures, exceptLoop, finalProgress, hr, hres]

theorem C3_amended_empty_method_layer_witness :
    (OGRLayer_Erase natEngine defaultOverlayEnv
        (⟨[⟨1, some 5⟩, ⟨2, none⟩, ⟨3, some 0⟩], none⟩ : Layer Nat Nat)
        ⟨[], none⟩ okResultLayer defaultOverlayOptions).res
      = inputLeftovers natEngine [⟨1, some 5⟩, ⟨2, none⟩, ⟨3, some 0⟩] ∧
    (OGRLayer_Union natEngine defaultOverlayEnv
        (⟨[⟨1, some 5⟩, ⟨2, none⟩, ⟨3, some 0⟩], none⟩ : Layer Nat Nat)
        ⟨[], none⟩ okResultLayer defaultOverlayOptions).res
      = inputLeftovers natEngine [⟨1, some 5⟩, ⟨2, none⟩, ⟨3, some 0⟩] ∧
    (OGRLayer_Intersection natEngine defaultOverlayEnv
        (⟨[⟨1, some 5⟩, ⟨2, none⟩, ⟨3, some 0⟩], none⟩ : Layer Nat Nat)
        ⟨[], none⟩ okResultLayer defaultOverlayOptions).res = [] ∧
    (OGRLayer_Clip natEngine defaultOverlayEnv
        (⟨[⟨1, some 5⟩, ⟨2, none⟩, ⟨3, some 0⟩], none⟩ : Layer Nat Nat)
        ⟨[], none⟩ okResultLayer defaultOverlayOptions).res = [] :=
  ⟨(C3_amended_empty_method_layer natEngine
      ⟨[⟨1, some 5⟩, ⟨2, none⟩, ⟨3, some 0⟩], none⟩ ⟨[], none⟩ okResultLayer
      rfl rfl rfl rfl (fun _ => rfl) (fun _ => rfl)).2.1,
   (C3_amended_empty_method_layer natEngine
      ⟨[⟨1, some 5⟩, ⟨2, none⟩, ⟨3, some 0⟩], none⟩ ⟨[], none⟩ okResultLayer
      rfl rfl rfl rfl (fun _ => rfl) (fun _ => rfl)).2.2.2,
   (C3_amended_empty_method_layer natEngine
      ⟨[⟨1, some 5⟩, ⟨2, none⟩, ⟨3, some 0⟩], none⟩ ⟨[], none⟩ okResultLayer
      rfl rfl rfl rfl (fun _ => rfl) (fun _ => rfl)).1,
   (C3_amended_empty_method_layer natEngine
      ⟨[⟨1, some 5⟩, ⟨2, none⟩, ⟨3, some 0⟩], none⟩ ⟨[], none⟩ okResultLayer
      rfl rfl rfl rfl (fun _ => rfl) (fun _ => rfl)).2.2.1⟩

end OGR
